import Mathlib

/- A shallow embedding of the airtable-rs client library (src/lib.rs): the
record envelope and serde-style page decoding, the query builder, the lazy
Paginator, and the one-shot create/update calls, together with proofs of
the specified properties. The HTTP layer is abstracted as an injected
function; machine behaviour of reqwest that the code relies on
(`error_for_status`, JSON body decoding) is modelled explicitly. -/

set_option autoImplicit false

namespace Airtable

/-- JSON values, the shape serde_json operates on. -/
inductive Json where
  | null : Json
  | boolean (b : Bool) : Json
  | num (n : Int) : Json
  | str (s : String) : Json
  | arr (elems : List Json) : Json
  | obj (kvs : List (String × Json)) : Json

/-- First binding of a key among the members of a JSON object. -/
def Json.lookup (key : String) : List (String × Json) → Option Json
  | [] => none
  | (k, v) :: rest => if k = key then some v else Json.lookup key rest

/-- The `Record` trait (src/lib.rs lines 160-163): the identifier
capability a caller type must provide, as an explicit dictionary. -/
structure Record (T : Type) where
  set_id : T → String → T
  id : T → String

/-- The record envelope `SRecord` (src/lib.rs lines 62-67): `id` carries
serde `default` (missing key decodes to the empty string) and
`skip_serializing` (never written on serialization); `fields` is the
typed payload. -/
structure SRecord (T : Type) where
  id : String
  fields : T
deriving DecidableEq

/-- The page envelope `RecordPage` (src/lib.rs lines 69-75): `records` is
required, `offset` carries serde `default` (missing key decodes to the
empty string). -/
structure RecordPage (T : Type) where
  records : List (SRecord T)
  offset : String
deriving DecidableEq

/-- Decoding a JSON value as a string, as serde does for a `String`
field. -/
def decodeString : Json → Option String
  | Json.str s => some s
  | _ => none

/-- Serde-derived deserialization of `SRecord T`: an object whose `id`
member (when present) must be a string and defaults to the empty string
when absent, and whose `fields` member is required and decoded by the
payload deserializer. Unknown members are ignored. -/
def decodeSRecord {T : Type} (decodeT : Json → Option T) : Json → Option (SRecord T)
  | Json.obj kvs =>
    (match Json.lookup "id" kvs with
     | none => some ""
     | some v => decodeString v).bind (fun i =>
      ((Json.lookup "fields" kvs).bind decodeT).bind (fun f =>
        some ⟨i, f⟩))
  | _ => none

/-- Serde deserialization of a JSON array of `SRecord T`, element by
element; any element failure fails the whole array. -/
def decodeRecords {T : Type} (decodeT : Json → Option T) : List Json → Option (List (SRecord T))
  | [] => some []
  | j :: rest =>
    (decodeSRecord decodeT j).bind (fun r =>
      (decodeRecords decodeT rest).bind (fun rs =>
        some (r :: rs)))

/-- Serde-derived deserialization of `RecordPage T`: `records` is a
required array member, `offset` defaults to the empty string when
absent. -/
def decodeRecordPage {T : Type} (decodeT : Json → Option T) : Json → Option (RecordPage T)
  | Json.obj kvs =>
    (match Json.lookup "records" kvs with
     | some (Json.arr elems) => decodeRecords decodeT elems
     | _ => none).bind (fun rs =>
      (match Json.lookup "offset" kvs with
       | none => some ""
       | some v => decodeString v).bind (fun off =>
        some ⟨rs, off⟩))
  | _ => none

/-- `SortDirection` (src/lib.rs lines 165-168). -/
inductive SortDirection where
  | Descending : SortDirection
  | Ascending : SortDirection
deriving DecidableEq

/-- `SortDirection::to_string` (src/lib.rs lines 170-177). -/
def SortDirection.toString : SortDirection → String
  | SortDirection.Descending => "desc"
  | SortDirection.Ascending => "asc"

/-- `QueryBuilder` (src/lib.rs lines 179-188), without the back reference
to the owning `Base`, which carries no query state. -/
structure QueryBuilder where
  fields : Option (List String)
  view : Option String
  formula : Option String
  sort : Option (List (String × SortDirection))
deriving DecidableEq

/-- `QueryBuilder::view` (src/lib.rs lines 195-198), called `set_view` in
the specification: overwriting store of the view name. -/
def QueryBuilder.set_view (qb : QueryBuilder) (view : String) : QueryBuilder :=
  { qb with view := some view }

/-- `QueryBuilder::formula` (src/lib.rs lines 200-203), called
`set_formula` in the specification: overwriting store of the filter
formula. -/
def QueryBuilder.set_formula (qb : QueryBuilder) (formula : String) : QueryBuilder :=
  { qb with formula := some formula }

/-- `QueryBuilder::sort` (src/lib.rs lines 205-216), called `add_sort` in
the specification: appends one (field, direction) pair, creating the list
on the first call. -/
def QueryBuilder.add_sort (qb : QueryBuilder) (field : String) (direction : SortDirection) : QueryBuilder :=
  match qb.sort with
  | none => { qb with sort := some [(field, direction)] }
  | some l => { qb with sort := some (l ++ [(field, direction)]) }

/-- `Base` (src/lib.rs lines 22-31): table and credential configuration;
the reqwest client itself is abstracted away. -/
structure Base where
  table : String
  api_key : String
  app_key : String

/-- `Base::query` (src/lib.rs lines 242-250): a fresh builder with every
option unset. -/
def Base.query (_self : Base) : QueryBuilder :=
  ⟨none, none, none, none⟩

/-- The constant `URL` (src/lib.rs line 18). -/
def URL : String := "https://api.airtable.com/v0"

/-- The sort query parameters (src/lib.rs lines 122-129): the enumerate
loop appends `sort[i][field]` and `sort[i][direction]` for each entry,
with `i` counting up from the given start index (0 at the call site). -/
def sortPairs : Nat → List (String × SortDirection) → List (String × String)
  | _, [] => []
  | i, (field, direction) :: rest =>
    ("sort[" ++ ToString.toString i ++ "][field]", field) ::
    ("sort[" ++ ToString.toString i ++ "][direction]", direction.toString) ::
    sortPairs (i + 1) rest

/-- The `view` query parameter when set (src/lib.rs lines 110-113). -/
def viewPairs (qb : QueryBuilder) : List (String × String) :=
  match qb.view with
  | some v => [("view", v)]
  | none => []

/-- The `filterByFormula` query parameter when set (src/lib.rs lines
115-120). -/
def formulaPairs (qb : QueryBuilder) : List (String × String) :=
  match qb.formula with
  | some f => [("filterByFormula", f)]
  | none => []

/-- The full query-pair list appended to the listing URL for one page
fetch (src/lib.rs lines 107-129): `offset` always (the fetch only happens
with a cursor present), then `view`, then `filterByFormula`, then the
sort parameters. -/
def buildQueryPairs (qb : QueryBuilder) (off : String) : List (String × String) :=
  [("offset", off)]
  ++ viewPairs qb
  ++ formulaPairs qb
  ++ (match qb.sort with
      | some l => sortPairs 0 l
      | none => [])

/-- Result of one HTTP call: a transport failure, or a response carrying
a status code and a body (`none` when the body is not valid JSON). -/
inductive HttpResult where
  | transportError : HttpResult
  | response (status : Nat) (body : Option Json) : HttpResult

/-- One page fetch as the Paginator performs it (src/lib.rs lines
131-137): a transport error or a body that does not decode as
`RecordPage` is collapsed to `none`; the HTTP status is not inspected on
this path. -/
def fetchPage {T : Type} (decodeT : Json → Option T)
    (fetch : List (String × String) → HttpResult)
    (req : List (String × String)) : Option (RecordPage T) :=
  match fetch req with
  | HttpResult.transportError => none
  | HttpResult.response _ body => body.bind (decodeRecordPage decodeT)

/-- `Paginator` (src/lib.rs lines 77-83): the cursor, the buffered
records not yet yielded (the `IntoIter` is modelled as the list of its
remaining elements), and the bound query builder. -/
structure Paginator (T : Type) where
  offset : Option String
  iterator : List T
  query_builder : QueryBuilder
deriving DecidableEq

/-- The mapped window of one fetched page (src/lib.rs lines 145-153):
each envelope record becomes its decoded fields payload with `set_id`
applied with the envelope-level id. -/
def pageWindow {T : Type} (ops : Record T) (page : RecordPage T) : List T :=
  page.records.map (fun r => ops.set_id r.fields r.id)

/-- Cursor replacement after a successful fetch (src/lib.rs lines
139-143): the returned offset when non-empty, otherwise exhaustion. -/
def pageNewOffset {T : Type} (page : RecordPage T) : Option String :=
  if page.offset.isEmpty then none else some page.offset

/-- One pull of the Paginator, `Iterator::next` (src/lib.rs lines
92-157): serve the buffer head if any; stop if the cursor is gone;
otherwise fetch one page with the current cursor and the builder's query
parameters, and on success replace cursor and buffer and return the new
buffer's first element. The URL path part is fixed for the Paginator's
lifetime, so a request is represented by its query pairs. -/
def Paginator.next {T : Type} (ops : Record T) (decodeT : Json → Option T)
    (fetch : List (String × String) → HttpResult)
    (p : Paginator T) : Option T × Paginator T :=
  match p.iterator with
  | t :: rest => (some t, ⟨p.offset, rest, p.query_builder⟩)
  | [] =>
    match p.offset with
    | none => (none, p)
    | some off =>
      match fetchPage decodeT fetch (buildQueryPairs p.query_builder off) with
      | none => (none, p)
      | some results =>
        match pageWindow ops results with
        | [] => (none, ⟨pageNewOffset results, [], p.query_builder⟩)
        | t :: rest => (some t, ⟨pageNewOffset results, rest, p.query_builder⟩)

/-- `IntoIterator::into_iter` for `QueryBuilder` (src/lib.rs lines
219-235): a Paginator with cursor `Some("")` and an empty buffer. -/
def QueryBuilder.into_iter {T : Type} (qb : QueryBuilder) : Paginator T :=
  ⟨some "", [], qb⟩

/-- Iterating the Paginator the way a Rust for-loop consumes an
`Iterator`: pull until the first end-of-sequence signal, with fuel
bounding the number of pulls. -/
def runPaginator {T : Type} (ops : Record T) (decodeT : Json → Option T)
    (fetch : List (String × String) → HttpResult) :
    Nat → Paginator T → List T
  | 0, _ => []
  | n + 1, p =>
    match Paginator.next ops decodeT fetch p with
    | (none, _) => []
    | (some t, p2) => t :: runPaginator ops decodeT fetch n p2

/-- An HTTP request as issued by the one-shot create/update calls. -/
structure Request where
  method : String
  url : String
  body : Json

/-- reqwest `Response::error_for_status`: an error exactly for client
(4xx) and server (5xx) status codes. -/
def isErrorStatus (s : Nat) : Bool :=
  decide (400 ≤ s) && decide (s < 600)

/-- The request `Base::create` builds (src/lib.rs lines 252-268): POST to
the table endpoint with the serialized `SRecord` as body. Because `id`
carries `skip_serializing`, the body is the single-member object
`{fields}`; a payload serialization failure aborts before any HTTP. -/
def createRequest {T : Type} (b : Base) (encodeT : T → Option Json) (record : T) : Option Request :=
  match encodeT record with
  | none => none
  | some fj =>
    some ⟨"POST", URL ++ "/" ++ b.app_key ++ "/" ++ b.table, Json.obj [("fields", fj)]⟩

/-- `Base::create` (src/lib.rs lines 252-273): build the request, send
it, and apply `error_for_status`; every failure mode collapses to the
one undifferentiated error. The record is taken immutably and no
service-assigned identifier is applied back. -/
def Base.create {T : Type} (b : Base) (encodeT : T → Option Json)
    (http : Request → HttpResult) (record : T) : Except Unit Unit :=
  match createRequest b encodeT record with
  | none => Except.error ()
  | some req =>
    match http req with
    | HttpResult.transportError => Except.error ()
    | HttpResult.response s _ =>
      if isErrorStatus s then Except.error () else Except.ok ()

/-- The request `Base::update` builds (src/lib.rs lines 279-296): PATCH
to `<table-endpoint>/<record id>` with the serialized `SRecord` as body.
The `SRecord` is constructed with the record's id, but `skip_serializing`
drops it, so the body is again the single-member object `{fields}`. -/
def updateRequest {T : Type} (b : Base) (ops : Record T) (encodeT : T → Option Json)
    (record : T) : Option Request :=
  match encodeT record with
  | none => none
  | some fj =>
    some ⟨"PATCH", URL ++ "/" ++ b.app_key ++ "/" ++ b.table ++ "/" ++ ops.id record,
          Json.obj [("fields", fj)]⟩

/-- `Base::update` (src/lib.rs lines 279-300): build the request, send
it, and apply `error_for_status`; every failure mode collapses to the one
undifferentiated error. -/
def Base.update {T : Type} (b : Base) (ops : Record T) (encodeT : T → Option Json)
    (http : Request → HttpResult) (record : T) : Except Unit Unit :=
  match updateRequest b ops encodeT record with
  | none => Except.error ()
  | some req =>
    match http req with
    | HttpResult.transportError => Except.error ()
    | HttpResult.response s _ =>
      if isErrorStatus s then Except.error () else Except.ok ()

/-- Test fixture: a caller record type with an identifier field and one
data field, the way a user of the library would implement the `Record`
trait. -/
structure Item where
  iid : String
  name : String
deriving DecidableEq

/-- Fixture `Record` dictionary for `Item`. -/
def itemOps : Record Item :=
  ⟨fun t s => { t with iid := s }, fun t => t.iid⟩

/-- Fixture deserializer for `Item`: an optional embedded "id" member
(defaulted to the empty string) and a required "Name" member. -/
def decodeItem : Json → Option Item
  | Json.obj kvs =>
    (match Json.lookup "id" kvs with
     | none => some ""
     | some (Json.str s) => some s
     | some _ => none).bind (fun i =>
      match Json.lookup "Name" kvs with
      | some (Json.str n) => some ⟨i, n⟩
      | _ => none)
  | _ => none

/-- Fixture serializer for `Item`: only the data field, as a caller's
fields payload would serialize. -/
def encodeItem : Item → Option Json :=
  fun t => some (Json.obj [("Name", Json.str t.name)])

/-- Fixture client configuration. -/
def baseW : Base := ⟨"tbl", "key", "app"⟩

/-- Fixture query builder with every option unset. -/
def qbW : QueryBuilder := Base.query baseW

/-- The accumulated sort list of a builder, empty when unset. -/
def sortList (qb : QueryBuilder) : List (String × SortDirection) :=
  qb.sort.getD []

/-- Fixture record with a non-empty identifier. -/
def itemW : Item := ⟨"rec1", "Bob"⟩

/-- Fixture page A of a two-page chain: one record and cursor "tokA". -/
def pageAW : RecordPage Item := ⟨[⟨"r1", ⟨"", "Ann"⟩⟩], "tokA"⟩

/-- Fixture page B of a two-page chain: one record and no further
cursor. -/
def pageBW : RecordPage Item := ⟨[⟨"r2", ⟨"", "Bob"⟩⟩], ""⟩

/-- JSON body of fixture page A. -/
def bodyAW : Json :=
  Json.obj [("records", Json.arr [Json.obj [("id", Json.str "r1"),
    ("fields", Json.obj [("Name", Json.str "Ann")])]]),
    ("offset", Json.str "tokA")]

/-- JSON body of fixture page B; the `offset` member is absent. -/
def bodyBW : Json :=
  Json.obj [("records", Json.arr [Json.obj [("id", Json.str "r2"),
    ("fields", Json.obj [("Name", Json.str "Bob")])]])]

/-- Fixture transport serving the two-page chain A (at cursor "") then B
(at cursor "tokA"). -/
def fetchW1 : List (String × String) → HttpResult := fun req =>
  if req = buildQueryPairs qbW "" then HttpResult.response 200 (some bodyAW)
  else if req = buildQueryPairs qbW "tokA" then HttpResult.response 200 (some bodyBW)
  else HttpResult.transportError

/-- JSON body of a first page with zero records but a further cursor. -/
def bodyXA : Json :=
  Json.obj [("records", Json.arr []), ("offset", Json.str "b")]

/-- JSON body of a second page holding one record and no cursor. -/
def bodyXB : Json :=
  Json.obj [("records", Json.arr [Json.obj [("id", Json.str "r2"),
    ("fields", Json.obj [("Name", Json.str "B")])]])]

/-- Fixture transport: an empty first page pointing at a non-empty second
page. -/
def fetchX1 : List (String × String) → HttpResult := fun req =>
  if req = buildQueryPairs qbW "" then HttpResult.response 200 (some bodyXA)
  else if req = buildQueryPairs qbW "b" then HttpResult.response 200 (some bodyXB)
  else HttpResult.transportError

/-- Fixture transport that always fails at the transport level. -/
def fetchFail : List (String × String) → HttpResult :=
  fun _ => HttpResult.transportError

/-- JSON body holding one well-formed record. -/
def body500 : Json :=
  Json.obj [("records", Json.arr [Json.obj [("id", Json.str "r1"),
    ("fields", Json.obj [("Name", Json.str "Ann")])]])]

/-- Fixture transport answering HTTP 500 with a body that still parses as
a page envelope. -/
def fetch500 : List (String × String) → HttpResult :=
  fun _ => HttpResult.response 500 (some body500)

/-- JSON body with zero records and a non-empty cursor. -/
def bodyX3 : Json :=
  Json.obj [("records", Json.arr []), ("offset", Json.str "tok2")]

/-- Fixture transport serving the zero-record page with cursor "tok2". -/
def fetchX3 : List (String × String) → HttpResult :=
  fun _ => HttpResult.response 200 (some bodyX3)

/-- JSON body with one record and a further cursor "nxt". -/
def bodyW3 : Json :=
  Json.obj [("records", Json.arr [Json.obj [("id", Json.str "r9"),
    ("fields", Json.obj [("Name", Json.str "Q")])]]),
    ("offset", Json.str "nxt")]

/-- Decoded form of `bodyW3`. -/
def pageW3 : RecordPage Item := ⟨[⟨"r9", ⟨"", "Q"⟩⟩], "nxt"⟩

/-- Fixture transport serving `bodyW3` for every request. -/
def fetchW3 : List (String × String) → HttpResult :=
  fun _ => HttpResult.response 200 (some bodyW3)

/-- Fixture transport serving an empty final page (no records, no
offset member) for every request. -/
def fetchW7 : List (String × String) → HttpResult :=
  fun _ => HttpResult.response 200 (some (Json.obj [("records", Json.arr [])]))

/-- JSON body whose single record carries an envelope-level id and a
different id embedded inside the fields payload. -/
def bodyW8 : Json :=
  Json.obj [("records", Json.arr [Json.obj [("id", Json.str "envelope-id"),
    ("fields", Json.obj [("id", Json.str "embedded-id"),
      ("Name", Json.str "Z")])]])]

/-- Decoded form of `bodyW8`: the embedded id survives decoding of the
fields payload. -/
def pageW8 : RecordPage Item := ⟨[⟨"envelope-id", ⟨"embedded-id", "Z"⟩⟩], ""⟩

/-- Fixture transport serving `bodyW8` for every request. -/
def fetchW8 : List (String × String) → HttpResult :=
  fun _ => HttpResult.response 200 (some bodyW8)

/-- JSON body whose single record object has no `id` member at all. -/
def bodyNoId : Json :=
  Json.obj [("records", Json.arr [Json.obj [("fields",
    Json.obj [("Name", Json.str "A")])]])]

/-- Fixture transport serving `bodyNoId` for every request. -/
def fetchNoId : List (String × String) → HttpResult :=
  fun _ => HttpResult.response 200 (some bodyNoId)

/-- Fixture builder with two sort entries added in order. -/
def qbW5 : QueryBuilder :=
  (qbW.add_sort "Name" SortDirection.Ascending).add_sort "Age" SortDirection.Descending

/-- Fixture one-shot transport answering status 304 (Not Modified). -/
def http304 : Request → HttpResult :=
  fun _ => HttpResult.response 304 none

/-- Fixture one-shot transport answering status 200. -/
def http200 : Request → HttpResult :=
  fun _ => HttpResult.response 200 none

/- Helper lemmas about one pull and about bounded iteration. -/

/-- A pull with a non-empty buffer pops the front and touches nothing
else. -/
theorem next_buffer_pop {T : Type} (ops : Record T) (decodeT : Json → Option T)
    (fetch : List (String × String) → HttpResult) (qb : QueryBuilder)
    (off : Option String) (t : T) (rest : List T) :
    Paginator.next ops decodeT fetch ⟨off, t :: rest, qb⟩ = (some t, ⟨off, rest, qb⟩) := rfl

/-- A pull in the terminal state yields nothing and leaves the state
unchanged, whatever the transport would answer. -/
theorem next_exhausted {T : Type} (ops : Record T) (decodeT : Json → Option T)
    (fetch : List (String × String) → HttpResult) (qb : QueryBuilder) :
    Paginator.next ops decodeT fetch ⟨none, [], qb⟩ = (none, ⟨none, [], qb⟩) := rfl

/-- A pull on an empty buffer with a live cursor and a successful page
fetch installs the new cursor and window and returns the window's first
element, if any. -/
theorem next_success {T : Type} (ops : Record T) (decodeT : Json → Option T)
    (fetch : List (String × String) → HttpResult) (qb : QueryBuilder) (off : String)
    (page : RecordPage T)
    (h : fetchPage decodeT fetch (buildQueryPairs qb off) = some page) :
    Paginator.next ops decodeT fetch ⟨some off, [], qb⟩ =
      ((pageWindow ops page).head?,
        ⟨pageNewOffset page, (pageWindow ops page).tail, qb⟩) := by
  have hr : Paginator.next ops decodeT fetch ⟨some off, [], qb⟩ =
      (match fetchPage decodeT fetch (buildQueryPairs qb off) with
       | none => (none, (⟨some off, [], qb⟩ : Paginator T))
       | some results =>
         match pageWindow ops results with
         | [] => (none, ⟨pageNewOffset results, [], qb⟩)
         | t :: rest => (some t, ⟨pageNewOffset results, rest, qb⟩)) := rfl
  rw [hr, h]
  cases hw : pageWindow ops page <;> simp [hw]

/-- A pull on an empty buffer with a live cursor and a failing page fetch
yields nothing and leaves the state unchanged. -/
theorem next_fetch_fails {T : Type} (ops : Record T) (decodeT : Json → Option T)
    (fetch : List (String × String) → HttpResult) (qb : QueryBuilder) (off : String)
    (h : fetchPage decodeT fetch (buildQueryPairs qb off) = (none : Option (RecordPage T))) :
    Paginator.next ops decodeT fetch ⟨some off, [], qb⟩ = (none, ⟨some off, [], qb⟩) := by
  have hr : Paginator.next ops decodeT fetch ⟨some off, [], qb⟩ =
      (match fetchPage decodeT fetch (buildQueryPairs qb off) with
       | none => (none, (⟨some off, [], qb⟩ : Paginator T))
       | some results =>
         match pageWindow ops results with
         | [] => (none, ⟨pageNewOffset results, [], qb⟩)
         | t :: rest => (some t, ⟨pageNewOffset results, rest, qb⟩)) := rfl
  rw [hr, h]

/-- Unfolding one iteration step when the pull yields an element. -/
theorem run_step_some {T : Type} (ops : Record T) (decodeT : Json → Option T)
    (fetch : List (String × String) → HttpResult) (n : Nat) (p p2 : Paginator T) (t : T)
    (h : Paginator.next ops decodeT fetch p = (some t, p2)) :
    runPaginator ops decodeT fetch (n + 1) p =
      t :: runPaginator ops decodeT fetch n p2 := by
  simp only [runPaginator, h]

/-- Unfolding one iteration step when the pull signals end of
sequence. -/
theorem run_step_none {T : Type} (ops : Record T) (decodeT : Json → Option T)
    (fetch : List (String × String) → HttpResult) (n : Nat) (p p2 : Paginator T)
    (h : Paginator.next ops decodeT fetch p = (none, p2)) :
    runPaginator ops decodeT fetch (n + 1) p = [] := by
  simp only [runPaginator, h]

/-- Iteration in the terminal state yields nothing for any amount of
fuel. -/
theorem run_exhausted {T : Type} (ops : Record T) (decodeT : Json → Option T)
    (fetch : List (String × String) → HttpResult) (qb : QueryBuilder) (n : Nat) :
    runPaginator ops decodeT fetch n ⟨none, [], qb⟩ = [] := by
  cases n with
  | zero => rfl
  | succ m =>
    exact run_step_none ops decodeT fetch m _ _ (next_exhausted ops decodeT fetch qb)

/-- Iteration first drains the buffer verbatim, in order. -/
theorem run_buffer {T : Type} (ops : Record T) (decodeT : Json → Option T)
    (fetch : List (String × String) → HttpResult) (qb : QueryBuilder)
    (buf : List T) : ∀ (off : Option String) (n : Nat),
    runPaginator ops decodeT fetch (n + buf.length) ⟨off, buf, qb⟩ =
      buf ++ runPaginator ops decodeT fetch n ⟨off, [], qb⟩ := by
  induction buf with
  | nil => intro off n; rfl
  | cons t rest ih =>
    intro off n
    have h1 : n + (t :: rest).length = (n + rest.length) + 1 := rfl
    rw [h1, run_step_some ops decodeT fetch (n + rest.length) _ _ t
      (next_buffer_pop ops decodeT fetch qb off t rest), ih off n]
    rfl

/-- Iteration across one successfully fetched non-empty page: the whole
window is yielded in order, then iteration proceeds from the replaced
cursor with an empty buffer. -/
theorem run_success {T : Type} (ops : Record T) (decodeT : Json → Option T)
    (fetch : List (String × String) → HttpResult) (qb : QueryBuilder) (off : String)
    (page : RecordPage T)
    (h : fetchPage decodeT fetch (buildQueryPairs qb off) = some page)
    (hne : pageWindow ops page ≠ []) (n : Nat) :
    runPaginator ops decodeT fetch (n + (pageWindow ops page).length) ⟨some off, [], qb⟩ =
      pageWindow ops page ++
        runPaginator ops decodeT fetch n ⟨pageNewOffset page, [], qb⟩ := by
  cases hw : pageWindow ops page with
  | nil => exact absurd hw hne
  | cons t rest =>
    have hnext : Paginator.next ops decodeT fetch ⟨some off, [], qb⟩ =
        (some t, ⟨pageNewOffset page, rest, qb⟩) := by
      rw [next_success ops decodeT fetch qb off page h, hw]
      rfl
    have h1 : n + (t :: rest).length = (n + rest.length) + 1 := rfl
    rw [h1, run_step_some ops decodeT fetch (n + rest.length) _ _ t hnext,
      run_buffer ops decodeT fetch qb rest (pageNewOffset page) n]
    rfl

/-- Iteration stopping at a successfully fetched page with an empty
record set: the pull signals end of sequence at once. -/
theorem run_success_empty {T : Type} (ops : Record T) (decodeT : Json → Option T)
    (fetch : List (String × String) → HttpResult) (qb : QueryBuilder) (off : String)
    (page : RecordPage T)
    (h : fetchPage decodeT fetch (buildQueryPairs qb off) = some page)
    (he : pageWindow ops page = []) (n : Nat) :
    runPaginator ops decodeT fetch (n + 1) ⟨some off, [], qb⟩ = [] := by
  have hnext : Paginator.next ops decodeT fetch ⟨some off, [], qb⟩ =
      (none, ⟨pageNewOffset page, [], qb⟩) := by
    rw [next_success ops decodeT fetch qb off page h, he]
    rfl
  exact run_step_none ops decodeT fetch n _ _ hnext

/-- The sort list grows by exactly the appended pair. -/
theorem sortList_add (qb : QueryBuilder) (f : String) (d : SortDirection) :
    sortList (qb.add_sort f d) = sortList qb ++ [(f, d)] := by
  cases h : qb.sort <;> simp [QueryBuilder.add_sort, h, sortList]

/-- Folding a list of add_sort calls appends them all, in call order. -/
theorem sortList_foldl (ps : List (String × SortDirection)) : ∀ (qb : QueryBuilder),
    sortList (ps.foldl (fun b pr => QueryBuilder.add_sort b pr.1 pr.2) qb) =
      sortList qb ++ ps := by
  induction ps with
  | nil => intro qb; simp
  | cons p rest ih =>
    intro qb
    rw [List.foldl_cons, ih, sortList_add]
    simp

/-- Entry `i` of the sort parameters, counting from start index `k`:
the field pair sits at position `2*i`, the direction pair right after. -/
theorem sortPairs_get (l : List (String × SortDirection)) : ∀ (k i : Nat) (f : String)
    (d : SortDirection), l.get? i = some (f, d) →
    (sortPairs k l).get? (2 * i) =
      some ("sort[" ++ ToString.toString (k + i) ++ "][field]", f) ∧
    (sortPairs k l).get? (2 * i + 1) =
      some ("sort[" ++ ToString.toString (k + i) ++ "][direction]", d.toString) := by
  induction l with
  | nil => intro k i f d h; simp at h
  | cons p rest ih =>
    intro k i f d h
    cases i with
    | zero =>
      have hp : p = (f, d) := by simpa using h
      subst hp
      exact ⟨rfl, rfl⟩
    | succ j =>
      have h3 : rest.get? j = some (f, d) := by simpa using h
      have h4 : k + (j + 1) = (k + 1) + j := by omega
      have h5 : 2 * (j + 1) = 2 * j + 2 := by ring
      rw [h4, h5]
      exact ih (k + 1) j f d h3

/- Claim theorems. -/

/-- Claim C1 (amended): for every cursor chain A then B then exhaustion
realized by two successful page fetches, where page A holds at least one
record, iterating the Paginator from its initial state yields exactly
page A's mapped records followed by page B's mapped records, preserving
server-returned order, with no duplicates and no drops, and then
terminates (any amount of extra fuel changes nothing). The proviso that
page A is non-empty is forced by the counterexample: the code ends the
pull that fetched an empty page even when a cursor remains. -/
theorem paginator_yields_two_pages_in_order {T : Type} (ops : Record T)
    (decodeT : Json → Option T) (fetch : List (String × String) → HttpResult)
    (qb : QueryBuilder) (pA pB : RecordPage T)
    (hA : fetchPage decodeT fetch (buildQueryPairs qb "") = some pA)
    (hAne : pA.records ≠ [])
    (hAoff : pA.offset.isEmpty = false)
    (hB : fetchPage decodeT fetch (buildQueryPairs qb pA.offset) = some pB)
    (hBoff : pB.offset.isEmpty = true)
    (m : Nat) :
    runPaginator ops decodeT fetch
        (m + 1 + (pageWindow ops pB).length + (pageWindow ops pA).length)
        (QueryBuilder.into_iter qb) =
      pageWindow ops pA ++ pageWindow ops pB := by
  have hwA : pageWindow ops pA ≠ [] := by
    simpa [pageWindow] using hAne
  have hoffA : pageNewOffset pA = some pA.offset := by
    simp [pageNewOffset, hAoff]
  have hoffB : pageNewOffset pB = none := by
    simp [pageNewOffset, hBoff]
  have e1 : runPaginator ops decodeT fetch
      (m + 1 + (pageWindow ops pB).length + (pageWindow ops pA).length)
      (QueryBuilder.into_iter qb) =
      pageWindow ops pA ++ runPaginator ops decodeT fetch
        (m + 1 + (pageWindow ops pB).length) ⟨pageNewOffset pA, [], qb⟩ :=
    run_success ops decodeT fetch qb "" pA hA hwA (m + 1 + (pageWindow ops pB).length)
  rw [e1, hoffA]
  by_cases hwB : pageWindow ops pB = []
  · rw [hwB]
    simp only [List.length_nil, Nat.add_zero, List.append_nil]
    rw [run_success_empty ops decodeT fetch qb pA.offset pB hB hwB m, List.append_nil]
  · have e3 := run_success ops decodeT fetch qb pA.offset pB hB hwB (m + 1)
    rw [hoffB] at e3
    rw [e3, run_exhausted ops decodeT fetch qb (m + 1)]
    simp

/-- Witness for paginator_yields_two_pages_in_order: the concrete
two-page fixture chain, iterated to completion. -/
theorem paginator_yields_two_pages_in_order_witness :
    (fetchPage decodeItem fetchW1 (buildQueryPairs qbW "") = some pageAW ∧
     pageAW.records ≠ [] ∧
     pageAW.offset.isEmpty = false ∧
     fetchPage decodeItem fetchW1 (buildQueryPairs qbW pageAW.offset) = some pageBW ∧
     pageBW.offset.isEmpty = true) ∧
    runPaginator itemOps decodeItem fetchW1
        (0 + 1 + (pageWindow itemOps pageBW).length + (pageWindow itemOps pageAW).length)
        (QueryBuilder.into_iter qbW) =
      pageWindow itemOps pageAW ++ pageWindow itemOps pageBW :=
  ⟨⟨by decide, by decide, by decide, by decide, by decide⟩,
    paginator_yields_two_pages_in_order itemOps decodeItem fetchW1 qbW pageAW pageBW
      (by decide) (by decide) (by decide) (by decide) (by decide) 0⟩

/-- Counterexample to claim C1 as stated: a successful cursor chain whose
page A holds zero records and points at a page B holding one record.
Iterating the Paginator yields nothing at all — the claim requires it to
yield page B's record. -/
theorem paginator_empty_first_page_stops :
    fetchPage decodeItem fetchX1 (buildQueryPairs qbW "") =
      some (⟨[], "b"⟩ : RecordPage Item) ∧
    fetchPage decodeItem fetchX1 (buildQueryPairs qbW "b") =
      some (⟨[⟨"r2", ⟨"", "B"⟩⟩], ""⟩ : RecordPage Item) ∧
    runPaginator itemOps decodeItem fetchX1 5 (QueryBuilder.into_iter qbW) = [] ∧
    runPaginator itemOps decodeItem fetchX1 5 (QueryBuilder.into_iter qbW) ≠
      pageWindow itemOps ⟨[], "b"⟩ ++ pageWindow itemOps ⟨[⟨"r2", ⟨"", "B"⟩⟩], ""⟩ :=
  ⟨by decide, by decide, by decide, by decide⟩

/-- Claim C2 (amended): a page fetch that fails at the transport level or
whose body does not decode as the page envelope makes the pull signal end
of sequence immediately, with no distinguishable error surfaced (the
state is left unchanged and iteration yields nothing). The HTTP status
code itself is never examined on the pagination path, so an error status
alone is not one of the masked failure modes — see the counterexample. -/
theorem fetch_failure_ends_stream {T : Type} (ops : Record T)
    (decodeT : Json → Option T) (fetch : List (String × String) → HttpResult)
    (qb : QueryBuilder) (off : String)
    (h : fetch (buildQueryPairs qb off) = HttpResult.transportError ∨
         ∃ s body, fetch (buildQueryPairs qb off) = HttpResult.response s body ∧
           body.bind (decodeRecordPage decodeT) = none) :
    Paginator.next ops decodeT fetch ⟨some off, [], qb⟩ = (none, ⟨some off, [], qb⟩) ∧
    ∀ n, runPaginator ops decodeT fetch n ⟨some off, [], qb⟩ = [] := by
  have hf : fetchPage decodeT fetch (buildQueryPairs qb off) =
      (none : Option (RecordPage T)) := by
    rcases h with h1 | ⟨s, body, h2, h3⟩
    · simp [fetchPage, h1]
    · simp [fetchPage, h2, h3]
  have hnext := next_fetch_fails ops decodeT fetch qb off hf
  refine ⟨hnext, ?_⟩
  intro n
  cases n with
  | zero => rfl
  | succ k => exact run_step_none ops decodeT fetch k _ _ hnext

/-- Witness for fetch_failure_ends_stream: a transport failure on the
first fetch. -/
theorem fetch_failure_ends_stream_witness :
    (fetchFail (buildQueryPairs qbW "") = HttpResult.transportError ∨
     ∃ s body, fetchFail (buildQueryPairs qbW "") = HttpResult.response s body ∧
       body.bind (decodeRecordPage decodeItem) = none) ∧
    (Paginator.next itemOps decodeItem fetchFail ⟨some "", [], qbW⟩ =
        (none, ⟨some "", [], qbW⟩) ∧
     ∀ n, runPaginator itemOps decodeItem fetchFail n ⟨some "", [], qbW⟩ = []) :=
  ⟨Or.inl rfl, fetch_failure_ends_stream itemOps decodeItem fetchFail qbW "" (Or.inl rfl)⟩

/-- Counterexample to claim C2 as stated: HTTP 500 is an error status,
yet when its body still parses as the page envelope the pull yields the
record instead of signalling end of sequence — the pagination path never
inspects the status code. -/
theorem error_status_not_masked :
    isErrorStatus 500 = true ∧
    fetch500 (buildQueryPairs qbW "") = HttpResult.response 500 (some body500) ∧
    Paginator.next itemOps decodeItem fetch500 ⟨some "", [], qbW⟩ =
      (some ⟨"r1", "Ann"⟩, ⟨none, [], qbW⟩) :=
  ⟨rfl, rfl, by decide⟩

/-- Claim C3 (amended): a pull on a non-exhausted Paginator with an empty
buffer and a successful page fetch replaces the cursor with the returned
next cursor (None if empty, else Some of it), replaces the buffer with
the page's mapped records in order, and returns the new buffer's first
element if any. A successful page with zero records therefore makes this
pull signal end of sequence (while retaining the new cursor for a later
pull) rather than fetching the next page — see the counterexample. -/
theorem success_replaces_cursor_and_buffer {T : Type} (ops : Record T)
    (decodeT : Json → Option T) (fetch : List (String × String) → HttpResult)
    (qb : QueryBuilder) (off : String) (page : RecordPage T)
    (h : fetchPage decodeT fetch (buildQueryPairs qb off) = some page) :
    Paginator.next ops decodeT fetch ⟨some off, [], qb⟩ =
      ((pageWindow ops page).head?,
        ⟨pageNewOffset page, (pageWindow ops page).tail, qb⟩) :=
  next_success ops decodeT fetch qb off page h

/-- Witness for success_replaces_cursor_and_buffer: a one-record page
with next cursor "nxt". -/
theorem success_replaces_cursor_and_buffer_witness :
    fetchPage decodeItem fetchW3 (buildQueryPairs qbW "") = some pageW3 ∧
    Paginator.next itemOps decodeItem fetchW3 ⟨some "", [], qbW⟩ =
      ((pageWindow itemOps pageW3).head?,
        ⟨pageNewOffset pageW3, (pageWindow itemOps pageW3).tail, qbW⟩) ∧
    pageNewOffset pageW3 = some "nxt" :=
  ⟨by decide,
   success_replaces_cursor_and_buffer itemOps decodeItem fetchW3 qbW "" pageW3 (by decide),
   by decide⟩

/-- Counterexample to claim C3 as stated: a successful page with zero
records and non-empty next cursor "tok2" makes the pull return the
end-of-sequence signal at once; no further fetch of the next page happens
within this pull, contrary to the claim's retry-from-step-1 behaviour. -/
theorem empty_page_signals_end :
    fetchPage decodeItem fetchX3 (buildQueryPairs qbW "") =
      some (⟨[], "tok2"⟩ : RecordPage Item) ∧
    Paginator.next itemOps decodeItem fetchX3 ⟨some "", [], qbW⟩ =
      (none, ⟨some "tok2", [], qbW⟩) :=
  ⟨by decide, by decide⟩

/-- Claim C4 (amended): for every record with a non-empty identifier,
update issues a PATCH to the table endpoint extended with the record id,
whose body is the single-member object containing only `fields` — the id
is excluded from serialization — and succeeds exactly when the transport
succeeds and the response status is not a client (4xx) or server (5xx)
error; in particular some non-2xx statuses such as 304 also succeed. -/
theorem update_sends_patch_fields_only {T : Type} (b : Base) (ops : Record T)
    (encodeT : T → Option Json) (record : T) (fj : Json)
    (_hid : ops.id record ≠ "") (henc : encodeT record = some fj) :
    updateRequest b ops encodeT record =
      some ⟨"PATCH", URL ++ "/" ++ b.app_key ++ "/" ++ b.table ++ "/" ++ ops.id record,
            Json.obj [("fields", fj)]⟩ ∧
    Json.lookup "id" [("fields", fj)] = none ∧
    ∀ http : Request → HttpResult,
      (Base.update b ops encodeT http record = Except.ok () ↔
        ∃ s body,
          http ⟨"PATCH", URL ++ "/" ++ b.app_key ++ "/" ++ b.table ++ "/" ++ ops.id record,
                Json.obj [("fields", fj)]⟩ = HttpResult.response s body ∧
          isErrorStatus s = false) := by
  have hne : ("fields" : String) ≠ "id" := by decide
  have hreq : updateRequest b ops encodeT record =
      some ⟨"PATCH", URL ++ "/" ++ b.app_key ++ "/" ++ b.table ++ "/" ++ ops.id record,
            Json.obj [("fields", fj)]⟩ := by
    simp [updateRequest, henc]
  refine ⟨hreq, by simp [Json.lookup, hne], ?_⟩
  intro http
  simp only [Base.update, hreq]
  cases hh : http ⟨"PATCH", URL ++ "/" ++ b.app_key ++ "/" ++ b.table ++ "/" ++ ops.id record,
      Json.obj [("fields", fj)]⟩ with
  | transportError => simp [hh]
  | response s body => cases hs : isErrorStatus s <;> simp [hh, hs]

/-- Witness for update_sends_patch_fields_only at the concrete fixture
record. -/
theorem update_sends_patch_fields_only_witness :
    (itemOps.id itemW ≠ "" ∧
     encodeItem itemW = some (Json.obj [("Name", Json.str "Bob")])) ∧
    updateRequest baseW itemOps encodeItem itemW =
      some ⟨"PATCH",
            URL ++ "/" ++ baseW.app_key ++ "/" ++ baseW.table ++ "/" ++ itemOps.id itemW,
            Json.obj [("fields", Json.obj [("Name", Json.str "Bob")])]⟩ ∧
    Json.lookup "id" [("fields", Json.obj [("Name", Json.str "Bob")])] = none :=
  ⟨⟨by decide, rfl⟩,
   (update_sends_patch_fields_only baseW itemOps encodeItem itemW
      (Json.obj [("Name", Json.str "Bob")]) (by decide) rfl).1,
   (update_sends_patch_fields_only baseW itemOps encodeItem itemW
      (Json.obj [("Name", Json.str "Bob")]) (by decide) rfl).2.1⟩

/-- Counterexample to claim C4 as stated: for the fixture record with
non-empty id "rec1" the PATCH body holds only the `fields` member —
serde `skip_serializing` drops the id, so the body is not of the shape
with a top-level id — and the call succeeds on status 304, which is not
a 2xx status. -/
theorem update_body_has_no_id :
    itemOps.id itemW = "rec1" ∧
    updateRequest baseW itemOps encodeItem itemW =
      some ⟨"PATCH", URL ++ "/" ++ "app" ++ "/" ++ "tbl" ++ "/" ++ "rec1",
            Json.obj [("fields", Json.obj [("Name", Json.str "Bob")])]⟩ ∧
    (URL ++ "/" ++ "app" ++ "/" ++ "tbl" ++ "/" ++ "rec1") =
      "https://api.airtable.com/v0/app/tbl/rec1" ∧
    Json.lookup "id" [("fields", Json.obj [("Name", Json.str "Bob")])] = none ∧
    Base.update baseW itemOps encodeItem http304 itemW = Except.ok () ∧
    ¬(200 ≤ 304 ∧ 304 ≤ 299) :=
  ⟨by decide, rfl, by decide, rfl, rfl, by decide⟩

/-- Claim C5: for every built query whose sort list is set, the outgoing
page request carries, for each entry in call-insertion order, the pairs
`sort[i][field]` and `sort[i][direction]` with zero-based index i, and
the direction serializes to the literal "asc" or "desc". -/
theorem sort_params_ordered_indexed (qb : QueryBuilder)
    (l : List (String × SortDirection)) (off : String)
    (h : qb.sort = some l) (i : Nat) (f : String) (d : SortDirection)
    (hi : l.get? i = some (f, d)) :
    SortDirection.toString SortDirection.Ascending = "asc" ∧
    SortDirection.toString SortDirection.Descending = "desc" ∧
    (∃ pre, buildQueryPairs qb off = pre ++ sortPairs 0 l) ∧
    (sortPairs 0 l).get? (2 * i) =
      some ("sort[" ++ ToString.toString i ++ "][field]", f) ∧
    (sortPairs 0 l).get? (2 * i + 1) =
      some ("sort[" ++ ToString.toString i ++ "][direction]", d.toString) := by
  have hg := sortPairs_get l 0 i f d hi
  have h0 : (0 : Nat) + i = i := by omega
  rw [h0] at hg
  refine ⟨rfl, rfl, ⟨[("offset", off)] ++ viewPairs qb ++ formulaPairs qb, ?_⟩,
    hg.1, hg.2⟩
  simp [buildQueryPairs, h, List.append_assoc]

/-- Witness for sort_params_ordered_indexed: a builder with two sort
calls, checked at the second entry. -/
theorem sort_params_ordered_indexed_witness :
    (qbW5.sort =
      some [("Name", SortDirection.Ascending), ("Age", SortDirection.Descending)] ∧
     [("Name", SortDirection.Ascending), ("Age", SortDirection.Descending)].get? 1 =
       some ("Age", SortDirection.Descending)) ∧
    (SortDirection.toString SortDirection.Ascending = "asc" ∧
     SortDirection.toString SortDirection.Descending = "desc" ∧
     (∃ pre, buildQueryPairs qbW5 "" = pre ++
        sortPairs 0 [("Name", SortDirection.Ascending), ("Age", SortDirection.Descending)]) ∧
     (sortPairs 0
        [("Name", SortDirection.Ascending), ("Age", SortDirection.Descending)]).get? 2 =
       some ("sort[" ++ ToString.toString 1 ++ "][field]", "Age") ∧
     (sortPairs 0
        [("Name", SortDirection.Ascending), ("Age", SortDirection.Descending)]).get? 3 =
       some ("sort[" ++ ToString.toString 1 ++ "][direction]",
         SortDirection.toString SortDirection.Descending)) :=
  ⟨⟨by decide, by decide⟩,
   sort_params_ordered_indexed qbW5
     [("Name", SortDirection.Ascending), ("Age", SortDirection.Descending)] ""
     (by decide) 1 "Age" SortDirection.Descending (by decide)⟩

/-- Claim C6: set_view and set_formula overwrite — after any sequence of
calls the builder holds exactly the last value passed — while add_sort
appends one pair per call, so a sequence of calls extends the sort list
by exactly those pairs in call order. -/
theorem builder_overwrite_and_accumulate (qb : QueryBuilder) (vs fs : List String)
    (v2 f2 : String) (ps : List (String × SortDirection)) :
    ((vs ++ [v2]).foldl (fun b w => b.set_view w) qb).view = some v2 ∧
    ((fs ++ [f2]).foldl (fun b w => b.set_formula w) qb).formula = some f2 ∧
    sortList (ps.foldl (fun b pr => b.add_sort pr.1 pr.2) qb) = sortList qb ++ ps := by
  refine ⟨?_, ?_, sortList_foldl ps qb⟩
  · rw [List.foldl_append]; rfl
  · rw [List.foldl_append]; rfl

/-- Claim C7: the terminal state (no cursor, empty buffer) is permanent:
every pull returns nothing and the same state whatever the transport
would answer (so no fetch is issued), iteration from it yields nothing
for any amount of fuel, and consuming a response with an empty record
set and an absent cursor lands exactly in that terminal state. -/
theorem terminal_state_permanent {T : Type} (ops : Record T)
    (decodeT : Json → Option T) (qb : QueryBuilder) :
    (∀ fetch, Paginator.next ops decodeT fetch ⟨none, [], qb⟩ =
      (none, ⟨none, [], qb⟩)) ∧
    (∀ fetch n, runPaginator ops decodeT fetch n ⟨none, [], qb⟩ = []) ∧
    (∀ fetch off, fetchPage decodeT fetch (buildQueryPairs qb off) =
        some (⟨[], ""⟩ : RecordPage T) →
      Paginator.next ops decodeT fetch ⟨some off, [], qb⟩ =
        (none, ⟨none, [], qb⟩)) := by
  refine ⟨fun fetch => next_exhausted ops decodeT fetch qb,
          fun fetch n => run_exhausted ops decodeT fetch qb n, ?_⟩
  intro fetch off h
  rw [next_success ops decodeT fetch qb off ⟨[], ""⟩ h]
  rfl

/-- Witness for terminal_state_permanent: an empty final page leads to
the terminal state, which then stays silent. -/
theorem terminal_state_permanent_witness :
    fetchPage decodeItem fetchW7 (buildQueryPairs qbW "x") =
      some (⟨[], ""⟩ : RecordPage Item) ∧
    Paginator.next itemOps decodeItem fetchW7 ⟨some "x", [], qbW⟩ =
      (none, ⟨none, [], qbW⟩) ∧
    Paginator.next itemOps decodeItem fetchW7 ⟨none, [], qbW⟩ =
      (none, ⟨none, [], qbW⟩) ∧
    runPaginator itemOps decodeItem fetchW7 9 ⟨none, [], qbW⟩ = [] :=
  ⟨by decide,
   (terminal_state_permanent itemOps decodeItem qbW).2.2 fetchW7 "x" (by decide),
   (terminal_state_permanent itemOps decodeItem qbW).1 fetchW7,
   (terminal_state_permanent itemOps decodeItem qbW).2.1 fetchW7 9⟩

/-- Claim C8: every record installed in the buffer by a successful fetch
(and hence every record the Paginator yields) is the decoded fields
payload with set_id applied with the envelope-level id of its entry —
taken from the envelope, not from any identifier embedded inside the
fields payload. -/
theorem yielded_ids_from_envelope {T : Type} (ops : Record T)
    (decodeT : Json → Option T) (fetch : List (String × String) → HttpResult)
    (qb : QueryBuilder) (off : String) (page : RecordPage T)
    (h : fetchPage decodeT fetch (buildQueryPairs qb off) = some page) :
    (Paginator.next ops decodeT fetch ⟨some off, [], qb⟩).1 =
      (pageWindow ops page).head? ∧
    (Paginator.next ops decodeT fetch ⟨some off, [], qb⟩).2.iterator =
      (pageWindow ops page).tail ∧
    ∀ i, (pageWindow ops page).get? i =
      (page.records.get? i).map (fun r => ops.set_id r.fields r.id) := by
  rw [next_success ops decodeT fetch qb off page h]
  refine ⟨rfl, rfl, ?_⟩
  intro i
  simp [pageWindow, List.get?_eq_getElem?, List.getElem?_map]

/-- Witness for yielded_ids_from_envelope: the decoded fields payload
carries the embedded id "embedded-id", yet the yielded record carries the
envelope id "envelope-id". -/
theorem yielded_ids_from_envelope_witness :
    fetchPage decodeItem fetchW8 (buildQueryPairs qbW "") = some pageW8 ∧
    (Paginator.next itemOps decodeItem fetchW8 ⟨some "", [], qbW⟩).1 =
      (pageWindow itemOps pageW8).head? ∧
    pageW8.records = [⟨"envelope-id", ⟨"embedded-id", "Z"⟩⟩] ∧
    pageWindow itemOps pageW8 = [⟨"envelope-id", "Z"⟩] :=
  ⟨by decide,
   (yielded_ids_from_envelope itemOps decodeItem fetchW8 qbW "" pageW8 (by decide)).1,
   by decide, by decide⟩

/-- Claim C9 (amended): create serializes only the record's fields (the
body is the single-member object containing `fields`, with no top-level
identifier), POSTs to the table endpoint, and succeeds exactly when
serialization succeeds, the transport succeeds, and the status is not a
client (4xx) or server (5xx) error — so some non-2xx statuses such as
304 also succeed; transport failure, 4xx/5xx status, and serialization
failure all collapse to the one undifferentiated failure, and the model
takes the record immutably and applies no identifier back. -/
theorem create_posts_fields_reports_failures {T : Type} (b : Base)
    (encodeT : T → Option Json) (record : T) :
    (∀ fj, encodeT record = some fj →
      createRequest b encodeT record =
        some ⟨"POST", URL ++ "/" ++ b.app_key ++ "/" ++ b.table,
              Json.obj [("fields", fj)]⟩ ∧
      Json.lookup "id" [("fields", fj)] = none) ∧
    ∀ http : Request → HttpResult,
      (Base.create b encodeT http record = Except.ok () ↔
        ∃ fj s body, encodeT record = some fj ∧
          http ⟨"POST", URL ++ "/" ++ b.app_key ++ "/" ++ b.table,
                Json.obj [("fields", fj)]⟩ = HttpResult.response s body ∧
          isErrorStatus s = false) := by
  have hne : ("fields" : String) ≠ "id" := by decide
  constructor
  · intro fj henc
    exact ⟨by simp [createRequest, henc], by simp [Json.lookup, hne]⟩
  · intro http
    cases henc : encodeT record with
    | none => simp [Base.create, createRequest, henc]
    | some fj =>
      simp only [Base.create, createRequest, henc]
      cases hh : http ⟨"POST", URL ++ "/" ++ b.app_key ++ "/" ++ b.table,
          Json.obj [("fields", fj)]⟩ with
      | transportError => simp [hh]
      | response s body => cases hs : isErrorStatus s <;> simp [hh, hs]

/-- Witness for create_posts_fields_reports_failures at the concrete
fixture record and a status-200 transport. -/
theorem create_posts_fields_reports_failures_witness :
    encodeItem itemW = some (Json.obj [("Name", Json.str "Bob")]) ∧
    createRequest baseW encodeItem itemW =
      some ⟨"POST", URL ++ "/" ++ baseW.app_key ++ "/" ++ baseW.table,
            Json.obj [("fields", Json.obj [("Name", Json.str "Bob")])]⟩ ∧
    Json.lookup "id" [("fields", Json.obj [("Name", Json.str "Bob")])] = none ∧
    (Base.create baseW encodeItem http200 itemW = Except.ok () ↔
      ∃ fj s body, encodeItem itemW = some fj ∧
        http200 ⟨"POST", URL ++ "/" ++ baseW.app_key ++ "/" ++ baseW.table,
              Json.obj [("fields", fj)]⟩ = HttpResult.response s body ∧
        isErrorStatus s = false) :=
  ⟨rfl,
   ((create_posts_fields_reports_failures baseW encodeItem itemW).1
      (Json.obj [("Name", Json.str "Bob")]) rfl).1,
   ((create_posts_fields_reports_failures baseW encodeItem itemW).1
      (Json.obj [("Name", Json.str "Bob")]) rfl).2,
   (create_posts_fields_reports_failures baseW encodeItem itemW).2 http200⟩

/-- Counterexample to claim C9 as stated: create succeeds on status 304,
which is not a success (2xx) status — the code only rejects 4xx/5xx. -/
theorem create_ok_on_status_304 :
    Base.create baseW encodeItem http304 itemW = Except.ok () ∧
    http304 ⟨"POST", URL ++ "/" ++ baseW.app_key ++ "/" ++ baseW.table,
      Json.obj [("fields", Json.obj [("Name", Json.str "Bob")])]⟩ =
        HttpResult.response 304 none ∧
    ¬(200 ≤ 304 ∧ 304 ≤ 299) :=
  ⟨rfl, rfl, by decide⟩

/-- Claim C10: a successfully fetched page containing a record object
with no id member still decodes — the id defaults to the empty string,
set_id is invoked with the empty string, and the record is yielded; the
missing member is not a body-decode failure. -/
theorem missing_id_defaults_empty :
    decodeSRecord decodeItem (Json.obj [("fields", Json.obj [("Name", Json.str "A")])]) =
      some ⟨"", ⟨"", "A"⟩⟩ ∧
    decodeRecordPage decodeItem bodyNoId = some ⟨[⟨"", ⟨"", "A"⟩⟩], ""⟩ ∧
    Paginator.next itemOps decodeItem fetchNoId ⟨some "", [], qbW⟩ =
      (some (itemOps.set_id ⟨"", "A"⟩ ""), ⟨none, [], qbW⟩) :=
  ⟨by decide, by decide, rfl⟩

end Airtable
